import Mathlib

/-!
Shallow embedding of `trace_common.go` from `akhenakh/ocgrpc_propagation`.

Go strings are Lean `String` (split into `List Char` for parsing), byte
slices are `List Nat` with entries below 256, and gRPC metadata
(`map[string][]string`) is an association list.  External collaborators
(the binary codec `propagation.FromBinary`, the tracing backend) are
parameters of the embedded functions.  A Go runtime panic (slice bounds
out of range) is modelled as `Option.none`.
-/

/-- Metadata key `grpc-trace-bin` (trace_common.go line 34). -/
def traceContextKey : String := "grpc-trace-bin"

/-- Metadata key `uber-trace-id` (trace_common.go line 35). -/
def jaegerContextKey : String := "uber-trace-id"

/-- gRPC metadata: a mapping from keys to lists of string values. -/
abbrev MD := List (String × List String)

/-- `vs, ok := md[key]`: the value list when the key is present. -/
def mdLookup : MD → String → Option (List String)
  | [], _ => none
  | (k, vs) :: rest, key => if k = key then some vs else mdLookup rest key

/-- `md[key]`: the value list, the empty (nil) slice when the key is absent. -/
def mdGet (md : MD) (key : String) : List String :=
  (mdLookup md key).getD []

/-- `trace.SpanContext`: 16-byte TraceID, 8-byte SpanID, option flags
(bit 0 = sampled). -/
structure SpanContext where
  traceID : List Nat
  spanID : List Nat
  traceOptions : Nat
deriving DecidableEq

/-- The zero value of `trace.SpanContext`. -/
def zeroSpanContext : SpanContext :=
  { traceID := List.replicate 16 0, spanID := List.replicate 8 0, traceOptions := 0 }

/-- `trace.LinkType`. -/
inductive LinkType where
  | unspecified
  | child
  | parent
deriving DecidableEq

/-- `trace.Link`, restricted to the fields set at trace_common.go line 100. -/
structure Link where
  traceID : List Nat
  spanID : List Nat
  linkType : LinkType
deriving DecidableEq

/-- The link added at trace_common.go line 100. -/
def childLink (p : SpanContext) : Link :=
  { traceID := p.traceID, spanID := p.spanID, linkType := LinkType.child }

/-- `strings.Split(jv, ":")` (trace_common.go line 133). -/
def splitOnColon : List Char → List (List Char)
  | [] => [[]]
  | c :: rest =>
    let r := splitOnColon rest
    if c = ':' then [] :: r
    else
      match r with
      | [] => [[c]]
      | h :: t => (c :: h) :: t

/-- `encoding/hex` digit decoding: accepts 0-9, a-f, A-F. -/
def fromHexChar (c : Char) : Option Nat :=
  if '0' ≤ c ∧ c ≤ '9' then some (c.toNat - ('0').toNat)
  else if 'a' ≤ c ∧ c ≤ 'f' then some (c.toNat - ('a').toNat + 10)
  else if 'A' ≤ c ∧ c ≤ 'F' then some (c.toNat - ('A').toNat + 10)
  else none

/-- `hex.DecodeString`: decodes hex digit pairs; an odd length or an
invalid digit is an error (`none`). -/
def hexDecode : List Char → Option (List Nat)
  | [] => some []
  | [_] => none
  | c1 :: c2 :: rest =>
    match fromHexChar c1, fromHexChar c2, hexDecode rest with
    | some hi, some lo, some tail => some ((16 * hi + lo) :: tail)
    | _, _, _ => none

/-- `hexDecodePadded` (trace_common.go lines 164-169): left-pads one `0`
when the length is odd, then hex-decodes. -/
def hexDecodePadded (h : List Char) : Option (List Nat) :=
  let h2 := if h.length % 2 ≠ 0 then '0' :: h else h
  hexDecode h2

/-- Go `copy(dst[start:], src)` on a fixed-size array viewed as a list:
copies `min src.length (dst.length - start)` bytes at offset `start`. -/
def goCopy (dst : List Nat) (start : Nat) (src : List Nat) : List Nat :=
  let n := min src.length (dst.length - start)
  dst.take start ++ src.take n ++ dst.drop (start + n)

/-- Trace-id placement of `spanContextFromJaeger` (trace_common.go lines
139-146).  In Go `start` is a signed int; a decoded length above 16 makes
`16 - len(b)` negative and `parent.TraceID[start:]` panics at runtime,
modelled as `none`. -/
def jaegerTraceIDBytes (b : List Nat) : Option (List Nat) :=
  if b.length ≤ 8 then
    some (goCopy (List.replicate 16 0) (8 + (8 - b.length)) b)
  else if b.length ≤ 16 then
    some (goCopy (List.replicate 16 0) (16 - b.length) b)
  else
    none

/-- Span-id placement (trace_common.go lines 152-153); a decoded length
above 8 makes `8 - len(b)` negative and the slice expression panics at
runtime, modelled as `none`. -/
def jaegerSpanIDBytes (b : List Nat) : Option (List Nat) :=
  if b.length ≤ 8 then
    some (goCopy (List.replicate 8 0) (8 - b.length) b)
  else
    none

/-- `spanContextFromJaeger` (trace_common.go lines 132-162).  Returns the
pair `(parent, ok)`; `none` models a runtime panic inside the function. -/
def spanContextFromJaeger (jv : String) : Option (SpanContext × Bool) :=
  let parts := splitOnColon jv.data
  if parts.length = 4 then
    match hexDecodePadded (parts.getD 0 []) with
    | none => some (zeroSpanContext, false)
    | some b =>
      match jaegerTraceIDBytes b with
      | none => none
      | some tid =>
        match hexDecodePadded (parts.getD 1 []) with
        | none => some ({ zeroSpanContext with traceID := tid }, false)
        | some b2 =>
          match jaegerSpanIDBytes b2 with
          | none => none
          | some sid =>
            let topts : Nat := if parts.getD 3 [] = ['1'] then 1 else 0
            some ({ traceID := tid, spanID := sid, traceOptions := topts }, true)
  else
    some (zeroSpanContext, true)

/-- The span started by the server-side tagger: either a span with a
remote parent, or a root span carrying the listed links. -/
inductive SpanStart where
  | remoteParent (parent : SpanContext) : SpanStart
  | root (links : List Link) : SpanStart
deriving DecidableEq

/-- `ServerHandler.traceTagRPC` (trace_common.go lines 58-103), with the
external binary codec `propagation.FromBinary` passed as `fromBinary`
(`none` = the codec reported no parent).  `none` in the result models a
runtime panic raised by the Jaeger decode. -/
def traceTagRPC (fromBinary : String → Option SpanContext)
    (isPublicEndpoint : Bool) (md : MD) : Option SpanStart :=
  let traceContext := mdGet md traceContextKey
  let p1 : SpanContext × Bool :=
    match traceContext with
    | t0 :: _ =>
      match fromBinary t0 with
      | some p => (p, true)
      | none => (zeroSpanContext, false)
    | [] => (zeroSpanContext, false)
  if p1.2 && !isPublicEndpoint then
    some (SpanStart.remoteParent p1.1)
  else
    let fallback : SpanStart :=
      SpanStart.root (if p1.2 then [childLink p1.1] else [])
    match mdLookup md jaegerContextKey with
    | some (j0 :: _) =>
      if !p1.2 then
        match spanContextFromJaeger j0 with
        | none => none
        | some (p, hp) =>
          if hp && !isPublicEndpoint then some (SpanStart.remoteParent p)
          else some (SpanStart.root (if hp then [childLink p] else []))
      else some fallback
    | some [] => some fallback
    | none => some fallback

/-- `JaegerTracePropagateUnaryInterceptor` (trace_common.go lines
106-115), seen as the transformation it applies to the outgoing
metadata of the context handed to the next handler. -/
def JaegerTracePropagateUnaryInterceptor (incoming : Option MD)
    (outgoing : List (String × String)) : List (String × String) :=
  match incoming with
  | some md =>
    match mdLookup md jaegerContextKey with
    | some (t0 :: _) => outgoing ++ [(jaegerContextKey, t0)]
    | some [] => outgoing
    | none => outgoing
  | none => outgoing

/-- `JaegerTracePropagateStreamInterceptor` (trace_common.go lines
118-130), seen as the transformation it applies to the outgoing
metadata of the wrapped stream context. -/
def JaegerTracePropagateStreamInterceptor (incoming : Option MD)
    (outgoing : List (String × String)) : List (String × String) :=
  match incoming with
  | some md =>
    match mdLookup md jaegerContextKey with
    | some (t0 :: _) => outgoing ++ [(jaegerContextKey, t0)]
    | some [] => outgoing
    | none => outgoing
  | none => outgoing

/-- `trace.Status`. -/
structure Status where
  code : Int
  message : String
deriving DecidableEq

/-- `codes.Internal`. -/
def codesInternal : Int := 13

/-- A Go `error` as consumed at trace_common.go lines 184-190: its
`Error()` text and, when `status.FromError` succeeds, the RPC status
code and message it carries. -/
structure GoError where
  text : String
  rpcStatus : Option (Int × String)
deriving DecidableEq

/-- The `stats.RPCStats` variants handled by `traceHandleRPC`. -/
inductive RPCStats where
  | Begin (client failFast : Bool)
  | InPayload (length wireLength : Int)
  | OutPayload (length wireLength : Int)
  | End (error : Option GoError)
deriving DecidableEq

/-- The observable state of the span touched by `traceHandleRPC`. -/
structure SpanState where
  attributes : List (String × Bool)
  msgReceived : List (Int × Int × Int)
  msgSent : List (Int × Int × Int)
  status : Option Status
  ended : Bool
deriving DecidableEq

/-- `traceHandleRPC` (trace_common.go lines 171-194). -/
def traceHandleRPC (span : SpanState) (rs : RPCStats) : SpanState :=
  match rs with
  | RPCStats.Begin client failFast =>
    { span with attributes :=
        span.attributes ++ [("Client", client), ("FailFast", failFast)] }
  | RPCStats.InPayload length wireLength =>
    { span with msgReceived := span.msgReceived ++ [(0, length, wireLength)] }
  | RPCStats.OutPayload length wireLength =>
    { span with msgSent := span.msgSent ++ [(0, length, wireLength)] }
  | RPCStats.End error =>
    let span2 :=
      match error with
      | some e =>
        match e.rpcStatus with
        | some cm => { span with status := some { code := cm.1, message := cm.2 } }
        | none => { span with status := some { code := codesInternal, message := e.text } }
      | none => span
    { span2 with ended := true }

lemma goCopy_replicate_zero (n : Nat) (b : List Nat) (h : b.length ≤ n) :
    goCopy (List.replicate n 0) (n - b.length) b
      = List.replicate (n - b.length) 0 ++ b := by
  unfold goCopy
  simp only [List.length_replicate]
  have h2 : n - (n - b.length) = b.length := by omega
  rw [h2, Nat.min_self, List.take_length, List.take_replicate,
    Nat.min_eq_left (by omega), Nat.sub_add_cancel h, List.drop_replicate,
    Nat.sub_self, List.replicate_zero, List.append_nil]

/-- C1: for a secondary-header value with field count ≠ 4 such as
`"a:b:c"`, `spanContextFromJaeger` returns `ok = true` together with the
zero-valued `SpanContext`, not `ok = false` — so the resolver does not
treat the header as absent. -/
theorem spanContextFromJaeger_three_fields_ok_true :
    spanContextFromJaeger ("a:b:c") = some (zeroSpanContext, true) := by decide

/-- C2: the decode is not total: a span-id hex field that decodes to nine
bytes drives `start := 8 - len(b)` negative, and the slice expression
`parent.SpanID[start:]` panics (modelled by `none`), aborting the call. -/
theorem spanContextFromJaeger_long_span_field_fatal :
    spanContextFromJaeger ("0:000000000000000000:0:1") = none := by decide

/-- C4: `"463ac35c9f6413ad:0:0:1"` decodes with `ok = true` to a
TraceID whose upper 8 bytes are zero and whose lower 8 bytes are
`46 3a c3 5c 9f 64 13 ad`, an all-zero SpanID, and the sampled flag set. -/
theorem jaeger_example_decode :
    spanContextFromJaeger ("463ac35c9f6413ad:0:0:1") =
      some ({ traceID := List.replicate 8 0 ++
                [0x46, 0x3a, 0xc3, 0x5c, 0x9f, 0x64, 0x13, 0xad],
              spanID := List.replicate 8 0, traceOptions := 1 }, true) := by decide

/-- C5: decoded trace-id bytes of length at most 16 are right-aligned
into the 16-byte TraceID (for length ≤ 8 this right-aligns into the
lower 8 bytes, leaving the upper 8 bytes zero); but a field decoding to
17 bytes is not right-aligned: the slice expression panics (`none`). -/
theorem trace_id_alignment_and_overflow :
    (∀ b : List Nat, jaegerTraceIDBytes b =
        if b.length ≤ 16 then some (List.replicate (16 - b.length) 0 ++ b) else none)
    ∧ spanContextFromJaeger ("0000000000000000000000000000000000:0:0:1") = none := by
  constructor
  · intro b
    unfold jaegerTraceIDBytes
    by_cases h8 : b.length ≤ 8
    · rw [if_pos h8, if_pos (by omega : b.length ≤ 16),
        (by omega : 8 + (8 - b.length) = 16 - b.length),
        goCopy_replicate_zero 16 b (by omega)]
    · rw [if_neg h8]
      by_cases h16 : b.length ≤ 16
      · rw [if_pos h16, if_pos h16, goCopy_replicate_zero 16 b h16]
      · rw [if_neg h16, if_neg h16]
  · decide

/-- C8: `hexDecodePadded` on an odd-length input returns exactly what it
returns on the input prefixed with one `0` digit (same bytes, same error
status), and decodes even-length inputs unchanged. -/
theorem hexDecodePadded_odd_pad (h : List Char) :
    (h.length % 2 = 1 → hexDecodePadded h = hexDecodePadded ('0' :: h))
    ∧ (h.length % 2 = 0 → hexDecodePadded h = hexDecode h) := by
  constructor
  · intro hodd
    have he : (h.length + 1) % 2 = 0 := by omega
    unfold hexDecodePadded
    simp [hodd, List.length_cons, he]
  · intro heven
    unfold hexDecodePadded
    simp [heven]

theorem hexDecodePadded_odd_pad_witness :
    hexDecodePadded (['a', 'b', 'c']) = hexDecodePadded ('0' :: ['a', 'b', 'c'])
    ∧ hexDecodePadded (['a', 'b']) = hexDecode (['a', 'b']) :=
  ⟨(hexDecodePadded_odd_pad ['a', 'b', 'c']).1 (by decide),
   (hexDecodePadded_odd_pad ['a', 'b']).2 (by decide)⟩

/-- C9: on an `End` event the recorder always marks the span ended; it
leaves the status untouched when there is no error, copies the RPC
status code and message when extraction succeeds, and otherwise falls
back to `codes.Internal` with the error text as the message. -/
theorem end_event_status_and_end (span : SpanState) (e : Option GoError) :
    (traceHandleRPC span (RPCStats.End e)).ended = true
    ∧ (traceHandleRPC span (RPCStats.End none)).status = span.status
    ∧ (∀ t c m, (traceHandleRPC span (RPCStats.End (some ⟨t, some (c, m)⟩))).status
        = some { code := c, message := m })
    ∧ (∀ t, (traceHandleRPC span (RPCStats.End (some ⟨t, none⟩))).status
        = some { code := codesInternal, message := t }) := by
  refine ⟨?_, ?_, ?_, ?_⟩
  · match e with
    | none => simp [traceHandleRPC]
    | some ge =>
      match ge with
      | ⟨t, none⟩ => simp [traceHandleRPC]
      | ⟨t, some cm⟩ => simp [traceHandleRPC]
  · simp [traceHandleRPC]
  · intro t c m; simp [traceHandleRPC]
  · intro t; simp [traceHandleRPC]

lemma tk_ne_jk : ¬ traceContextKey = jaegerContextKey := by decide

lemma jk_ne_tk : ¬ jaegerContextKey = traceContextKey := by decide

/-- C7: when the incoming metadata carries a value under the secondary
key, both relay interceptors append that exact first value, unchanged
and without decoding it, to the outgoing metadata. -/
theorem relay_forwards_exact_value (md : MD) (out : List (String × String))
    (v : String) (rest : List String)
    (h : mdLookup md jaegerContextKey = some (v :: rest)) :
    JaegerTracePropagateUnaryInterceptor (some md) out = out ++ [(jaegerContextKey, v)]
    ∧ JaegerTracePropagateStreamInterceptor (some md) out = out ++ [(jaegerContextKey, v)] := by
  constructor <;>
    simp [JaegerTracePropagateUnaryInterceptor, JaegerTracePropagateStreamInterceptor, h]

theorem relay_forwards_exact_value_witness :
    JaegerTracePropagateUnaryInterceptor (some [(jaegerContextKey, [("zz:yy")])]) []
      = [] ++ [(jaegerContextKey, ("zz:yy"))]
    ∧ JaegerTracePropagateStreamInterceptor (some [(jaegerContextKey, [("zz:yy")])]) []
      = [] ++ [(jaegerContextKey, ("zz:yy"))] :=
  relay_forwards_exact_value [(jaegerContextKey, [("zz:yy")])] [] ("zz:yy") [] (by decide)

/-- C3: on a public endpoint, a valid parent decoded from the primary
key (or, when the primary key is absent, from the secondary key) is not
used as a remote parent: the handler starts a root span carrying exactly
one link of kind child with the decoded TraceID and SpanID. -/
theorem publicEndpoint_root_with_child_link (f : String → Option SpanContext)
    (p j : String) (ps jvs js : List String) :
    (∀ sc, f p = some sc →
      traceTagRPC f true [(traceContextKey, p :: ps), (jaegerContextKey, jvs)]
        = some (SpanStart.root [childLink sc]))
    ∧ (∀ sc, spanContextFromJaeger j = some (sc, true) →
      traceTagRPC f true [(jaegerContextKey, j :: js)]
        = some (SpanStart.root [childLink sc])) := by
  constructor
  · intro sc hsc
    cases jvs with
    | nil => simp [traceTagRPC, mdGet, mdLookup, hsc, tk_ne_jk]
    | cons j0 jrest => simp [traceTagRPC, mdGet, mdLookup, hsc, tk_ne_jk]
  · intro sc hsc
    simp [traceTagRPC, mdGet, mdLookup, hsc, jk_ne_tk]

theorem publicEndpoint_root_with_child_link_witness :
    traceTagRPC (fun _ => some zeroSpanContext) true
        [(traceContextKey, [("x")]), (jaegerContextKey, [])]
      = some (SpanStart.root [childLink zeroSpanContext])
    ∧ traceTagRPC (fun _ => some zeroSpanContext) true
        [(jaegerContextKey, [("463ac35c9f6413ad:0:0:1")])]
      = some (SpanStart.root [childLink
          { traceID := List.replicate 8 0 ++
              [0x46, 0x3a, 0xc3, 0x5c, 0x9f, 0x64, 0x13, 0xad],
            spanID := List.replicate 8 0, traceOptions := 1 }]) := by
  have h := publicEndpoint_root_with_child_link (fun _ => some zeroSpanContext)
    ("x") ("463ac35c9f6413ad:0:0:1") [] [] []
  exact ⟨h.1 zeroSpanContext rfl,
    h.2 { traceID := List.replicate 8 0 ++
            [0x46, 0x3a, 0xc3, 0x5c, 0x9f, 0x64, 0x13, 0xad],
          spanID := List.replicate 8 0, traceOptions := 1 } (by decide)⟩

/-- C6: the resolver is an ordered fallback chain with early return:
when the primary value binary-decodes, the result is independent of the
secondary key (a remote-parent span when the endpoint is not public, a
root span with a child link when it is), and when the primary decode
fails and the secondary decode reports `ok = false`, a fresh root span
with no links is started. -/
theorem resolver_fallback_chain (f : String → Option SpanContext) (pub : Bool)
    (p : String) (ps jvs : List String) :
    (∀ sc, f p = some sc →
      traceTagRPC f pub [(traceContextKey, p :: ps), (jaegerContextKey, jvs)]
        = some (if pub then SpanStart.root [childLink sc] else SpanStart.remoteParent sc))
    ∧ (∀ j js q, f p = none → spanContextFromJaeger j = some (q, false) →
      traceTagRPC f pub [(traceContextKey, p :: ps), (jaegerContextKey, j :: js)]
        = some (SpanStart.root [])) := by
  constructor
  · intro sc hsc
    cases pub with
    | false => simp [traceTagRPC, mdGet, mdLookup, hsc, tk_ne_jk]
    | true => cases jvs <;> simp [traceTagRPC, mdGet, mdLookup, hsc, tk_ne_jk]
  · intro j js q h1 h2
    cases pub <;> simp [traceTagRPC, mdGet, mdLookup, h1, h2, tk_ne_jk]

theorem resolver_fallback_chain_witness :
    traceTagRPC (fun _ => some zeroSpanContext) false
        [(traceContextKey, [("x")]), (jaegerContextKey, [("ignored")])]
      = some (SpanStart.remoteParent zeroSpanContext)
    ∧ traceTagRPC (fun _ => none) false
        [(traceContextKey, [("x")]), (jaegerContextKey, [("zz:0:0:1")])]
      = some (SpanStart.root []) :=
  ⟨(resolver_fallback_chain (fun _ => some zeroSpanContext) false ("x") [] [("ignored")]).1
      zeroSpanContext rfl,
   (resolver_fallback_chain (fun _ => none) false ("x") [] []).2
      ("zz:0:0:1") [] zeroSpanContext rfl (by decide)⟩

/-- C10: only the first metadata value of the primary and secondary keys
is consulted: dropping every later value changes neither the resolver
result nor what either relay interceptor appends to the outgoing
metadata. -/
theorem only_first_metadata_value_used (f : String → Option SpanContext) (pub : Bool)
    (v w : String) (vs ws : List String) (out : List (String × String)) :
    traceTagRPC f pub [(traceContextKey, v :: vs), (jaegerContextKey, w :: ws)]
      = traceTagRPC f pub [(traceContextKey, [v]), (jaegerContextKey, [w])]
    ∧ JaegerTracePropagateUnaryInterceptor (some [(jaegerContextKey, w :: ws)]) out
      = JaegerTracePropagateUnaryInterceptor (some [(jaegerContextKey, [w])]) out
    ∧ JaegerTracePropagateStreamInterceptor (some [(jaegerContextKey, w :: ws)]) out
      = JaegerTracePropagateStreamInterceptor (some [(jaegerContextKey, [w])]) out := by
  refine ⟨?_, rfl, rfl⟩
  simp [traceTagRPC, mdGet, mdLookup, tk_ne_jk]

